import Mathlib

/-!
Shallow embedding of the VOID anonymous whisper-board backend
(src/backend/server.js) and proofs about its operations.

Mongo documents become Lean structures; the Mongo collections become
lists; `findOne` / `findById` become `List.find?`; `findOneAndUpdate` /
`findByIdAndUpdate` update the first matching element; `$inc` is a plain
increment; timestamps and ObjectIds are modelled as naturals supplied by
the caller.  JavaScript string truthiness (`!s`) is modelled as equality
with the empty string.
-/

namespace VoidSrv

/-- User document (userSchema, server.js lines 28-33): opaque device key,
light-point balance, ban flag, creation time. -/
structure User where
  deviceToken : String
  lightPoints : Nat
  isBanned : Bool
  createdAt : Nat
deriving DecidableEq, Repr

/-- Post document (voidPostSchema, server.js lines 36-46).  `id` stands for
the Mongo `_id`. -/
structure Post where
  id : Nat
  mood : String
  text : String
  room : String
  authorToken : String
  status : String
  reports : Nat
  replyCount : Nat
  createdAt : Nat
deriving DecidableEq, Repr

/-- Reply document (voidReplySchema, server.js lines 52-60). -/
structure Reply where
  id : Nat
  postId : Nat
  text : String
  responderToken : String
  isAuthorReply : Bool
  status : String
  reports : Nat
  createdAt : Nat
deriving DecidableEq, Repr

/-- The persistent state: the three Mongo collections. -/
structure DB where
  users : List User
  posts : List Post
  replies : List Reply
deriving DecidableEq, Repr

/-- `User.findOne({deviceToken: k})`: first user with the given key. -/
def findUser (users : List User) (k : String) : Option User :=
  users.find? (fun u => u.deviceToken == k)

/-- `findOneAndUpdate` semantics: apply `f` to the first user whose
`deviceToken` matches, leave everything else unchanged. -/
def updateFirstUser (users : List User) (k : String) (f : User → User) : List User :=
  match users with
  | [] => []
  | u :: rest =>
      if u.deviceToken == k then f u :: rest
      else u :: updateFirstUser rest k f

/-- `{$inc: {lightPoints: d}}` on the first user with key `k`
(server.js lines 166, 261). -/
def incLightPoints (users : List User) (k : String) (d : Nat) : List User :=
  updateFirstUser users k (fun u => { u with lightPoints := u.lightPoints + d })

/-- One uppercase-alphanumeric key character, `[A-Z0-9]`. -/
def isKeyChar (c : Char) : Bool :=
  (decide ('A' ≤ c) && decide (c ≤ 'Z')) || (decide ('0' ≤ c) && decide (c ≤ '9'))

/-- The key regex `^VOID-[A-Z0-9]{4}-[A-Z0-9]{4}-[A-Z0-9]{4}$`
(server.js line 108), transcribed over the character list of the key. -/
def keyPattern (s : String) : Bool :=
  match s.data with
  | ['V','O','I','D','-', a1,a2,a3,a4, '-', b1,b2,b3,b4, '-', c1,c2,c3,c4] =>
      [a1,a2,a3,a4,b1,b2,b3,b4,c1,c2,c3,c4].all isKeyChar
  | _ => false

/-- Outcome of the auth middleware, mirroring its four exits. -/
inductive AuthResult where
  | missingKey
  | invalidFormat
  | shadowBanned
  | ok (u : User)
deriving DecidableEq, Repr

/-- `authUser` middleware (server.js lines 98-130): reject a missing or
falsy key, reject a key failing the format regex before any lookup, then
find-or-create the user and short-circuit banned users.  `key?` is the
`x-void-key` header (`none` = absent) and `now` the creation timestamp
used when a new user document is created. -/
def authUser (users : List User) (key? : Option String) (now : Nat) :
    AuthResult × List User :=
  match key? with
  | none => (.missingKey, users)
  | some k =>
      if k = "" then (.missingKey, users)
      else if keyPattern k = false then (.invalidFormat, users)
      else
        match findUser users k with
        | some u =>
            if u.isBanned then (.shadowBanned, users) else (.ok u, users)
        | none =>
            let u : User :=
              { deviceToken := k, lightPoints := 0, isBanned := false, createdAt := now }
            if u.isBanned then (.shadowBanned, users ++ [u])
            else (.ok u, users ++ [u])

/-- The fixed denylist (server.js line 134). -/
def prohibited : List String := ["suicide", "kill myself", "die", "murder", "hate you"]

/-- JavaScript `hay.includes(sub)`: `sub` occurs contiguously in `hay`. -/
def includesSub (hay sub : String) : Bool :=
  decide (sub.data <:+: hay.data)

/-- JavaScript `text.toLowerCase()`: lowercase every character. -/
def toLowerStr (s : String) : String :=
  ⟨s.data.map Char.toLower⟩

/-- `moderateText` (server.js lines 133-136): admissible iff the lowercased
text contains none of the prohibited substrings. -/
def moderateText (text : String) : Bool :=
  !(prohibited.any (fun word => includesSub (toLowerStr text) word))

/-- The fixed room list (server.js line 155). -/
def validRooms : List String := ["general", "love", "work", "family", "life"]

/-- `assignedRoom` (server.js line 156): keep a valid room, otherwise fall
back to `"general"`.  `room?` is the request-body field (`none` = absent). -/
def assignRoom (room? : Option String) : String :=
  match room? with
  | some r => if validRooms.contains r then r else "general"
  | none => "general"

/-- Outcome of `POST /api/post`. -/
inductive CreatePostResult where
  | emptyFields
  | harmfulContent
  | created (p : Post)
deriving DecidableEq, Repr

/-- `POST /api/post` (server.js lines 148-169), after `authUser` has
resolved `u`: reject empty fields (JS falsiness of the body strings),
reject inadmissible text, store the post with the sanitized room and the
caller as author, and award 1 light point.  `newId` is the Mongo-assigned
id and `now` the creation timestamp. -/
def createPost (db : DB) (u : User) (mood text : String) (room? : Option String)
    (newId now : Nat) : CreatePostResult × DB :=
  if mood = "" ∨ text = "" then (.emptyFields, db)
  else if moderateText text = false then (.harmfulContent, db)
  else
    let p : Post :=
      { id := newId, mood := mood, text := text, room := assignRoom room?,
        authorToken := u.deviceToken, status := "active",
        reports := 0, replyCount := 0, createdAt := now }
    (.created p,
      { db with
          posts := db.posts ++ [p],
          users := incLightPoints db.users u.deviceToken 1 })

/-- The `$match` stage of `GET /api/post/random` (server.js lines 205-213):
active, fewer than 3 reports, not the requester's own post, and — only when
the `room` query parameter is truthy and not `"all"` — the requested room. -/
def matchStage (requesterToken : String) (room? : Option String) (p : Post) : Bool :=
  (p.status == "active" && p.reports < 3 && !(p.authorToken == requesterToken)) &&
    (match room? with
     | none => true
     | some r => if r ≠ "" ∧ r ≠ "all" then p.room == r else true)

/-- The `$sort: {replyCount: 1, createdAt: -1}` comparator (server.js
line 223): fewest replies first, ties broken by newest creation time. -/
def postOrder (p q : Post) : Prop :=
  p.replyCount < q.replyCount ∨ (p.replyCount = q.replyCount ∧ q.createdAt ≤ p.createdAt)

instance : DecidableRel postOrder := fun p q => by
  unfold postOrder; infer_instance

instance : IsTotal Post postOrder where
  total p q := by
    unfold postOrder
    rcases Nat.lt_trichotomy p.replyCount q.replyCount with h | h | h
    · exact Or.inl (Or.inl h)
    · rcases Nat.le_total q.createdAt p.createdAt with h' | h'
      · exact Or.inl (Or.inr ⟨h, h'⟩)
      · exact Or.inr (Or.inr ⟨h.symm, h'⟩)
    · exact Or.inr (Or.inl h)

instance : IsTrans Post postOrder where
  trans p q r hpq hqr := by
    unfold postOrder at *
    rcases hpq with h1 | ⟨h1, h1'⟩
    · rcases hqr with h2 | ⟨h2, _⟩
      · exact Or.inl (h1.trans h2)
      · exact Or.inl (h2 ▸ h1)
    · rcases hqr with h2 | ⟨h2, h2'⟩
      · exact Or.inl (h1 ▸ h2)
      · exact Or.inr ⟨h1.trans h2, h2'.trans h1'⟩

/-- The candidate pool of `GET /api/post/random` (server.js lines 216-227):
filter by `matchStage`, sort by `postOrder`, keep the first 50. -/
def randomPool (posts : List Post) (requesterToken : String) (room? : Option String) :
    List Post :=
  ((posts.filter (matchStage requesterToken room?)).insertionSort postOrder).take 50

/-- `GET /api/post/random` (server.js lines 201-239): `$sample` one post
from the pool; `rand` is the sampler's random choice.  `none` is the 204
No Content response for an empty result. -/
def randomPost (posts : List Post) (requesterToken : String) (room? : Option String)
    (rand : Nat) : Option Post :=
  let pool := randomPool posts requesterToken room?
  if h : pool = [] then none
  else
    some (pool.get ⟨rand % pool.length, Nat.mod_lt _ (List.length_pos.mpr h)⟩)

/-- `VoidPost.findById`. -/
def findPost (posts : List Post) (pid : Nat) : Option Post :=
  posts.find? (fun p => p.id == pid)

/-- `VoidPost.findByIdAndUpdate` without reading the result: apply `f` to
the first post with id `pid`. -/
def updateFirstPost (posts : List Post) (pid : Nat) (f : Post → Post) : List Post :=
  match posts with
  | [] => []
  | p :: rest =>
      if p.id == pid then f p :: rest
      else p :: updateFirstPost rest pid f

/-- `VoidReply.findByIdAndUpdate` without reading the result. -/
def updateFirstReply (replies : List Reply) (rid : Nat) (f : Reply → Reply) :
    List Reply :=
  match replies with
  | [] => []
  | r :: rest =>
      if r.id == rid then f r :: rest
      else r :: updateFirstReply rest rid f

/-- Outcome of `POST /api/reply`. -/
inductive CreateReplyResult where
  | missingData
  | notFound
  | success
deriving DecidableEq, Repr

/-- `POST /api/reply` (server.js lines 242-264): reject missing body data,
404 when the parent post does not exist, otherwise store the reply (tagging
author self-replies), bump the parent's `replyCount`, and award 5 light
points. -/
def createReply (db : DB) (u : User) (postId? : Option Nat) (text : String)
    (newId now : Nat) : CreateReplyResult × DB :=
  match postId? with
  | none => (.missingData, db)
  | some pid =>
      if text = "" then (.missingData, db)
      else
        match findPost db.posts pid with
        | none => (.notFound, db)
        | some post =>
            let isAuthor := post.authorToken == u.deviceToken
            let rep : Reply :=
              { id := newId, postId := pid, text := text,
                responderToken := u.deviceToken, isAuthorReply := isAuthor,
                status := "visible", reports := 0, createdAt := now }
            (.success,
              { users := incLightPoints db.users u.deviceToken 5,
                posts := updateFirstPost db.posts pid
                  (fun p => { p with replyCount := p.replyCount + 1 }),
                replies := db.replies ++ [rep] })

/-- `VoidReply.findById`. -/
def findReply (replies : List Reply) (rid : Nat) : Option Reply :=
  replies.find? (fun r => r.id == rid)

/-- `VoidPost.findByIdAndUpdate(id, upd, {new: true})`: the updated
document (`none` when no post has id `pid` — the JS value `null`)
together with the updated collection. -/
def findByIdAndUpdatePost (posts : List Post) (pid : Nat) (f : Post → Post) :
    Option Post × List Post :=
  ((findPost posts pid).map f, updateFirstPost posts pid f)

/-- `VoidReply.findByIdAndUpdate(id, upd, {new: true})`. -/
def findByIdAndUpdateReply (replies : List Reply) (rid : Nat) (f : Reply → Reply) :
    Option Reply × List Reply :=
  ((findReply replies rid).map f, updateFirstReply replies rid f)

/-- Outcome of `POST /api/report`.  `nullDeref` models the uncaught
JavaScript `TypeError` raised by reading `.reports` of the `null` returned
when the id matches nothing (server.js lines 271-272 and 274-275 have no
null check), i.e. a 500-class crash, not an HTTP not-found response. -/
inductive ReportResult where
  | success
  | nullDeref
deriving DecidableEq, Repr

/-- `POST /api/report` (server.js lines 267-279): `type === 'post'` targets
the post collection, anything else the reply collection; increment
`reports` and, if the post-increment count reached 3, set the status to
`"hidden"`. -/
def reportContent (db : DB) (ty : String) (id : Nat) : ReportResult × DB :=
  if ty = "post" then
    let upd := findByIdAndUpdatePost db.posts id (fun p => { p with reports := p.reports + 1 })
    match upd.1 with
    | none => (.nullDeref, { db with posts := upd.2 })
    | some p =>
        if 3 ≤ p.reports then
          (.success,
            { db with
                posts := updateFirstPost upd.2 id (fun q => { q with status := "hidden" }) })
        else (.success, { db with posts := upd.2 })
  else
    let upd := findByIdAndUpdateReply db.replies id (fun r => { r with reports := r.reports + 1 })
    match upd.1 with
    | none => (.nullDeref, { db with replies := upd.2 })
    | some r =>
        if 3 ≤ r.reports then
          (.success,
            { db with
                replies := updateFirstReply upd.2 id (fun q => { q with status := "hidden" }) })
        else (.success, { db with replies := upd.2 })

/-- The net effect of one report on an existing post: increment `reports`,
then hide iff the post-increment count is at least 3 (the per-document
semantics of server.js lines 271-272). -/
def applyReportPost (p : Post) : Post :=
  let p' : Post := { p with reports := p.reports + 1 }
  if 3 ≤ p'.reports then { p' with status := "hidden" } else p'

/-- The net effect of one report on an existing reply (server.js lines
274-275). -/
def applyReportReply (r : Reply) : Reply :=
  let r' : Reply := { r with reports := r.reports + 1 }
  if 3 ≤ r'.reports then { r' with status := "hidden" } else r'

/-- `DELETE /api/admin/ban` body effect (server.js lines 345-357): ban the
user and optionally soft-delete their content. -/
def adminBan (db : DB) (token : String) (deleteContent : Bool) : DB :=
  let users' := updateFirstUser db.users token (fun u => { u with isBanned := true })
  if deleteContent then
    { users := users',
      posts := db.posts.map
        (fun p => if p.authorToken == token then { p with status := "deleted" } else p),
      replies := db.replies.map
        (fun r => if r.responderToken == token then { r with status := "deleted" } else r) }
  else { db with users := users' }

/-- The light-point balance visible for key `k` (`GET /api/me`). -/
def getPoints (db : DB) (k : String) : Option Nat :=
  (findUser db.users k).map User.lightPoints

/-- Light points of every key never go down from `before` to `after`. -/
def PointsNondecreasing (before after : List User) : Prop :=
  ∀ k n, (findUser before k).map User.lightPoints = some n →
    ∃ m, (findUser after k).map User.lightPoints = some m ∧ n ≤ m

section Helpers

theorem findUser_updateFirstUser_self (users : List User) (k : String) (f : User → User)
    (hf : ∀ u, (f u).deviceToken = u.deviceToken) :
    findUser (updateFirstUser users k f) k = (findUser users k).map f := by
  induction users with
  | nil => rfl
  | cons u rest ih =>
      by_cases h : u.deviceToken = k
      · have hb : ((f u).deviceToken == k) = true := beq_iff_eq.mpr ((hf u).trans h)
        have hb' : (u.deviceToken == k) = true := beq_iff_eq.mpr h
        simp [updateFirstUser, findUser, List.find?_cons, h, hb, hb']
      · have hb : (u.deviceToken == k) = false := beq_eq_false_iff_ne.mpr h
        simp only [updateFirstUser, findUser, List.find?_cons] at *
        simp [h, hb, ih]

theorem findUser_updateFirstUser_ne (users : List User) (k k' : String) (f : User → User)
    (hf : ∀ u, (f u).deviceToken = u.deviceToken) (hk : k' ≠ k) :
    findUser (updateFirstUser users k f) k' = findUser users k' := by
  induction users with
  | nil => rfl
  | cons u rest ih =>
      by_cases h : u.deviceToken = k
      · have h' : u.deviceToken ≠ k' := by rw [h]; exact fun e => hk e.symm
        have hb : ((f u).deviceToken == k') = false :=
          beq_eq_false_iff_ne.mpr (by rw [hf u]; exact h')
        have hb' : (u.deviceToken == k') = false := beq_eq_false_iff_ne.mpr h'
        have hbk : (k == k') = false := beq_eq_false_iff_ne.mpr (fun e => hk e.symm)
        simp [updateFirstUser, findUser, List.find?_cons, h, hb, hb', hbk]
      · simp only [updateFirstUser, findUser, List.find?_cons] at *
        by_cases h' : u.deviceToken = k'
        · have hb' : (u.deviceToken == k') = true := beq_iff_eq.mpr h'
          simp [h, hb']
        · have hb' : (u.deviceToken == k') = false := beq_eq_false_iff_ne.mpr h'
          simp [h, hb', ih]

theorem findUser_incLightPoints_self (users : List User) (k : String) (d : Nat) :
    findUser (incLightPoints users k d) k
      = (findUser users k).map (fun u => { u with lightPoints := u.lightPoints + d }) :=
  findUser_updateFirstUser_self users k _ (fun _ => rfl)

theorem findUser_incLightPoints_ne (users : List User) (k k' : String) (d : Nat)
    (hk : k' ≠ k) :
    findUser (incLightPoints users k d) k' = findUser users k' :=
  findUser_updateFirstUser_ne users k k' _ (fun _ => rfl) hk

theorem pointsNondecreasing_incLightPoints (users : List User) (k : String) (d : Nat) :
    PointsNondecreasing users (incLightPoints users k d) := by
  intro k' n hn
  by_cases hk : k' = k
  · subst hk
    rw [findUser_incLightPoints_self]
    match hu : findUser users k' with
    | none => rw [hu] at hn; exact absurd hn (by simp)
    | some u =>
        rw [hu] at hn
        simp only [Option.map_some'] at hn ⊢
        have hn' := Option.some.inj hn
        exact ⟨u.lightPoints + d, rfl, by omega⟩
  · rw [findUser_incLightPoints_ne users k k' d hk]
    exact ⟨n, hn, le_refl n⟩

theorem pointsNondecreasing_refl (users : List User) :
    PointsNondecreasing users users :=
  fun _ n hn => ⟨n, hn, le_refl n⟩

theorem findUser_append_of_found (users : List User) (extra : List User)
    (k : String) (u : User) (h : findUser users k = some u) :
    findUser (users ++ extra) k = some u := by
  unfold findUser at *
  rw [List.find?_append, h]
  rfl

/-- Every post of the sampling pool passes the `$match` stage. -/
theorem matchStage_of_mem_randomPool (posts : List Post) (tok : String)
    (room? : Option String) (p : Post) (hp : p ∈ randomPool posts tok room?) :
    matchStage tok room? p = true := by
  unfold randomPool at hp
  have h1 : p ∈ (posts.filter (matchStage tok room?)).insertionSort postOrder :=
    List.take_subset _ _ hp
  have h2 : p ∈ posts.filter (matchStage tok room?) :=
    (List.perm_insertionSort postOrder _).mem_iff.mp h1
  exact (List.mem_filter.mp h2).2

/-- A sampled post comes from the pool. -/
theorem mem_randomPool_of_randomPost (posts : List Post) (tok : String)
    (room? : Option String) (rand : Nat) (p : Post)
    (h : randomPost posts tok room? rand = some p) :
    p ∈ randomPool posts tok room? := by
  unfold randomPost at h
  dsimp only at h
  split at h
  · exact absurd h (by simp)
  · exact Option.some.inj h ▸ List.get_mem _ _ _

end Helpers

/-- C4: a key failing the `VOID-XXXX-XXXX-XXXX` pattern is rejected with the
user store untouched (no Identity is ever created for it), and a well-formed
key never seen before creates exactly one new user with zero points and
`isBanned = false`, returned as the resolved identity. -/
theorem auth_key_format (users : List User) (k : String) (now : Nat) :
    (keyPattern k = false →
      authUser users (some k) now
        = ((if k = "" then AuthResult.missingKey else AuthResult.invalidFormat), users)) ∧
    (keyPattern k = true → findUser users k = none →
      authUser users (some k) now
        = (.ok ⟨k, 0, false, now⟩, users ++ [⟨k, 0, false, now⟩])) := by
  constructor
  · intro hk
    by_cases h0 : k = ""
    · simp [authUser, h0]
    · simp [authUser, h0, hk]
  · intro hk hfind
    have h0 : ¬k = "" := fun h => by subst h; exact absurd hk (by decide)
    simp [authUser, h0, hk, hfind]

/-- Witness for `auth_key_format`: a lowercase key is rejected without
creating anything; a fresh well-formed key creates the zero-point,
non-banned user. -/
theorem auth_key_format_witness :
    authUser [] (some "void-abcd-efgh-ijkl") 7 = (.invalidFormat, []) ∧
    authUser [] (some "VOID-AB12-CD34-EF56") 7
      = (.ok ⟨"VOID-AB12-CD34-EF56", 0, false, 7⟩,
         [⟨"VOID-AB12-CD34-EF56", 0, false, 7⟩]) := by
  constructor
  · exact ((auth_key_format [] "void-abcd-efgh-ijkl" 7).1 (by decide)).trans (by decide)
  · exact (auth_key_format [] "VOID-AB12-CD34-EF56" 7).2 (by decide) rfl

/-- C5: `moderateText` returns `false` exactly when the lowercased text
contains one of the prohibited substrings (no word boundaries); in
particular "I want to die today" is rejected and "I had a great day" is
accepted. -/
theorem moderation_denylist :
    (∀ text : String, moderateText text = false ↔
        ∃ w ∈ prohibited, w.data <:+: (toLowerStr text).data) ∧
    moderateText "I want to die today" = false ∧
    moderateText "I had a great day" = true := by
  refine ⟨fun text => ?_, by decide, by decide⟩
  unfold moderateText includesSub
  simp [List.any_eq_true]

/-- C6: the stored room is always drawn from the fixed five-element list:
a valid room is kept unchanged, any other value (or an absent one) silently
becomes `"general"`, and `POST /api/post` stores exactly this sanitized
room. -/
theorem room_coercion (room? : Option String) (db : DB) (u : User)
    (mood text : String) (i t : Nat) :
    assignRoom room? ∈ validRooms ∧
    (∀ r, room? = some r → r ∈ validRooms → assignRoom room? = r) ∧
    ((∀ r, room? = some r → r ∉ validRooms) → assignRoom room? = "general") ∧
    (∀ p db', createPost db u mood text room? i t = (.created p, db') →
        p.room = assignRoom room?) := by
  refine ⟨?_, ?_, ?_, ?_⟩
  · rcases room? with _ | r
    · simp [assignRoom, validRooms]
    · by_cases h : validRooms.contains r = true
      · simp only [assignRoom, if_pos h]
        exact List.mem_of_elem_eq_true h
      · simp only [assignRoom, if_neg h]
        simp [validRooms]
  · intro r hr hmem
    subst hr
    simp only [assignRoom]
    exact if_pos (List.elem_iff.mpr hmem)
  · intro hno
    rcases hx : room? with _ | r
    · rfl
    · simp only [assignRoom]
      rw [if_neg]
      intro hc
      exact hno r (by rw [hx]) (List.mem_of_elem_eq_true hc)
  · intro p db' hcp
    unfold createPost at hcp
    split at hcp
    · exact absurd hcp (by simp)
    · split at hcp
      · exact absurd hcp (by simp)
      · simp only [Prod.mk.injEq] at hcp
        have := CreatePostResult.created.inj hcp.1
        rw [← this]

/-- Witness for `room_coercion`: unknown rooms "nonexistent" and "career"
and an absent room all coerce to `"general"`; a valid room is kept. -/
theorem room_coercion_witness :
    assignRoom (some "nonexistent") = "general" ∧
    assignRoom (some "career") = "general" ∧
    assignRoom none = "general" ∧
    assignRoom (some "love") = "love" ∧
    assignRoom (some "nonexistent") ∈ validRooms := by
  have h1 := room_coercion (some "nonexistent") ⟨[], [], []⟩ ⟨"", 0, false, 0⟩ "" "" 0 0
  have h2 := room_coercion (some "career") ⟨[], [], []⟩ ⟨"", 0, false, 0⟩ "" "" 0 0
  have h3 := room_coercion none ⟨[], [], []⟩ ⟨"", 0, false, 0⟩ "" "" 0 0
  have h4 := room_coercion (some "love") ⟨[], [], []⟩ ⟨"", 0, false, 0⟩ "" "" 0 0
  exact ⟨h1.2.2.1 (fun r hr => by cases hr; decide),
         h2.2.2.1 (fun r hr => by cases hr; decide),
         h3.2.2.1 (fun r hr => absurd hr (by simp)),
         h4.2.1 "love" rfl (by decide),
         h1.1⟩

/-- C1: a post returned by `GET /api/post/random` always lies among the
first `min(M, 50)` elements of an ordering of the `M` eligible candidates
that sorts ascending by `replyCount` with ties broken by descending
`createdAt`. -/
theorem pool_bound (posts : List Post) (tok : String) (room? : Option String)
    (rand : Nat) (p : Post)
    (h : randomPost posts tok room? rand = some p) :
    ∃ l : List Post,
      (posts.filter (matchStage tok room?)).Perm l ∧
      l.Pairwise postOrder ∧
      p ∈ l.take (min (posts.filter (matchStage tok room?)).length 50) := by
  have hp : p ∈ randomPool posts tok room? :=
    mem_randomPool_of_randomPost posts tok room? rand p h
  refine ⟨(posts.filter (matchStage tok room?)).insertionSort postOrder,
    (List.perm_insertionSort postOrder _).symm,
    List.sorted_insertionSort postOrder _, ?_⟩
  unfold randomPool at hp
  have hlen : ((posts.filter (matchStage tok room?)).insertionSort postOrder).length
      = (posts.filter (matchStage tok room?)).length :=
    (List.perm_insertionSort postOrder _).length_eq
  rw [← List.take_take, List.take_of_length_le]
  · exact hp
  · rw [List.length_take, hlen]
    exact Nat.min_le_right _ _

/-- Witness for `pool_bound`: a concrete three-post board where the sampler
returns the newest unreplied post of another author. -/
theorem pool_bound_witness :
    ∃ l : List Post,
      (([⟨1, "sad", "t1", "general", "A", "active", 0, 0, 5⟩,
         ⟨2, "sad", "t2", "love", "B", "active", 0, 1, 9⟩,
         ⟨3, "sad", "t3", "general", "B", "active", 0, 0, 9⟩] : List Post).filter
            (matchStage "Z" none)).Perm l ∧
      l.Pairwise postOrder ∧
      (⟨3, "sad", "t3", "general", "B", "active", 0, 0, 9⟩ : Post) ∈ l.take
        (min (([⟨1, "sad", "t1", "general", "A", "active", 0, 0, 5⟩,
                ⟨2, "sad", "t2", "love", "B", "active", 0, 1, 9⟩,
                ⟨3, "sad", "t3", "general", "B", "active", 0, 0, 9⟩] : List Post).filter
              (matchStage "Z" none)).length 50) :=
  pool_bound _ "Z" none 0 _ (by decide)

/-- C7: an empty eligible-candidate set yields the distinguished
"no content" result (HTTP 204, `none` here), not an error, for every
random draw. -/
theorem empty_eligible_no_content (posts : List Post) (tok : String)
    (room? : Option String) (rand : Nat)
    (h : posts.filter (matchStage tok room?) = []) :
    randomPost posts tok room? rand = none := by
  have hpool : randomPool posts tok room? = [] := by
    unfold randomPool
    rw [h]
    rfl
  unfold randomPost
  simp [hpool]

/-- Witness for `empty_eligible_no_content`: the requester is the sole
author of every post in room "life", so the filtered set is empty and the
endpoint answers no-content; an unknown room behaves the same way. -/
theorem empty_eligible_no_content_witness :
    ([⟨1, "sad", "t1", "life", "A", "active", 0, 0, 5⟩,
      ⟨2, "numb", "t2", "life", "A", "active", 0, 2, 9⟩] : List Post).filter
        (matchStage "A" (some "life")) = [] ∧
    randomPost [⟨1, "sad", "t1", "life", "A", "active", 0, 0, 5⟩,
      ⟨2, "numb", "t2", "life", "A", "active", 0, 2, 9⟩] "A" (some "life") 3 = none ∧
    randomPost [⟨1, "sad", "t1", "life", "A", "active", 0, 0, 5⟩,
      ⟨2, "numb", "t2", "life", "A", "active", 0, 2, 9⟩] "B" (some "nonexistent") 3
        = none := by
  refine ⟨by decide, ?_, ?_⟩
  · exact empty_eligible_no_content _ "A" (some "life") 3 (by decide)
  · exact empty_eligible_no_content _ "B" (some "nonexistent") 3 (by decide)

/-- C2 counterexample: with the empty-string room filter — a value that is
neither absent nor `"all"` — the endpoint still returns a post whose room
differs from the filter, because the JS truthiness test `room && room !==
'all'` treats `""` as falsy and skips the room restriction entirely. -/
theorem eligibility_cex :
    randomPost [⟨1, "sad", "t", "general", "A", "active", 0, 0, 0⟩] "B" (some "") 0
      = some ⟨1, "sad", "t", "general", "A", "active", 0, 0, 0⟩ ∧
    ¬((some "" : Option String) = none ∨ ("" : String) = "all" ∨
      (⟨1, "sad", "t", "general", "A", "active", 0, 0, 0⟩ : Post).room = "") := by
  decide

/-- C2 (amended): every post returned by `GET /api/post/random` is active,
has fewer than 3 reports, is not authored by the requester, and matches the
room filter whenever the filter is present and neither empty nor `"all"`
(an absent, empty, or `"all"` filter imposes no room restriction). -/
theorem eligibility_amended (posts : List Post) (tok : String) (room? : Option String)
    (rand : Nat) (p : Post)
    (h : randomPost posts tok room? rand = some p) :
    p.status = "active" ∧ p.reports < 3 ∧ p.authorToken ≠ tok ∧
    (room? = none ∨ room? = some "" ∨ room? = some "all" ∨
      ∃ r, room? = some r ∧ p.room = r) := by
  have hm := matchStage_of_mem_randomPool posts tok room? p
    (mem_randomPool_of_randomPost posts tok room? rand p h)
  unfold matchStage at hm
  simp only [Bool.and_eq_true, beq_iff_eq, Bool.not_eq_true', decide_eq_true_eq] at hm
  obtain ⟨⟨⟨h1, h2⟩, h3⟩, h4⟩ := hm
  refine ⟨h1, h2, beq_eq_false_iff_ne.mp h3, ?_⟩
  rcases room? with _ | r
  · exact Or.inl rfl
  · change (if r ≠ "" ∧ r ≠ "all" then p.room == r else true) = true at h4
    by_cases hc : r ≠ "" ∧ r ≠ "all"
    · rw [if_pos hc] at h4
      exact Or.inr (Or.inr (Or.inr ⟨r, rfl, beq_iff_eq.mp h4⟩))
    · rcases Decidable.not_and_iff_or_not.mp hc with hr | hr
      · exact Or.inr (Or.inl (by rw [Decidable.not_not.mp hr]))
      · exact Or.inr (Or.inr (Or.inl (by rw [Decidable.not_not.mp hr])))

/-- Witness for `eligibility_amended`: a concrete draw from room "general"
returns an active, unreported post by another author, in that room. -/
theorem eligibility_amended_witness :
    (⟨3, "sad", "t3", "general", "B", "active", 0, 0, 9⟩ : Post).status = "active" ∧
    (⟨3, "sad", "t3", "general", "B", "active", 0, 0, 9⟩ : Post).reports < 3 ∧
    (⟨3, "sad", "t3", "general", "B", "active", 0, 0, 9⟩ : Post).authorToken ≠ "Z" ∧
    ((some "general" : Option String) = none ∨
      (some "general" : Option String) = some "" ∨
      (some "general" : Option String) = some "all" ∨
      ∃ r, (some "general" : Option String) = some r ∧
        (⟨3, "sad", "t3", "general", "B", "active", 0, 0, 9⟩ : Post).room = r) :=
  eligibility_amended
    [⟨1, "sad", "t1", "general", "A", "active", 0, 0, 5⟩,
     ⟨2, "sad", "t2", "love", "B", "active", 0, 1, 9⟩,
     ⟨3, "sad", "t3", "general", "B", "active", 0, 0, 9⟩] "Z" (some "general") 0 _
    (by decide)

section ReportHelpers

theorem applyReportPost_reports (p : Post) :
    (applyReportPost p).reports = p.reports + 1 := by
  unfold applyReportPost
  dsimp only
  split <;> rfl

theorem applyReportPost_status_low (p : Post) (h : p.reports + 1 < 3) :
    (applyReportPost p).status = p.status := by
  unfold applyReportPost
  dsimp only
  rw [if_neg (by omega)]

theorem applyReportPost_status_high (p : Post) (h : 3 ≤ p.reports + 1) :
    (applyReportPost p).status = "hidden" := by
  unfold applyReportPost
  dsimp only
  rw [if_pos h]

theorem applyReportReply_reports (r : Reply) :
    (applyReportReply r).reports = r.reports + 1 := by
  unfold applyReportReply
  dsimp only
  split <;> rfl

theorem applyReportReply_status_low (r : Reply) (h : r.reports + 1 < 3) :
    (applyReportReply r).status = r.status := by
  unfold applyReportReply
  dsimp only
  rw [if_neg (by omega)]

theorem applyReportReply_status_high (r : Reply) (h : 3 ≤ r.reports + 1) :
    (applyReportReply r).status = "hidden" := by
  unfold applyReportReply
  dsimp only
  rw [if_pos h]

end ReportHelpers

/-- C3: one report increments the counter by exactly 1, and the result is
hidden exactly when the post-increment counter is at least 3; an
already-hidden entity keeps its status and only its counter moves; a fresh
active (resp. visible) entity is unchanged after two reports and hidden
after the third.  The hypotheses record the reachable-state invariant that
a hidden entity already has at least 3 reports. -/
theorem report_threshold (p : Post) (r : Reply)
    (hp : p.status = "hidden" → 3 ≤ p.reports)
    (hr : r.status = "hidden" → 3 ≤ r.reports) :
    ((applyReportPost p).reports = p.reports + 1 ∧
      ((applyReportPost p).status = "hidden" ↔ 3 ≤ p.reports + 1) ∧
      (p.status = "hidden" →
        applyReportPost p = { p with reports := p.reports + 1 }) ∧
      (p.status = "active" → p.reports = 0 →
        (applyReportPost (applyReportPost p)).status = "active" ∧
        (applyReportPost (applyReportPost (applyReportPost p))).status = "hidden")) ∧
    ((applyReportReply r).reports = r.reports + 1 ∧
      ((applyReportReply r).status = "hidden" ↔ 3 ≤ r.reports + 1) ∧
      (r.status = "hidden" →
        applyReportReply r = { r with reports := r.reports + 1 }) ∧
      (r.status = "visible" → r.reports = 0 →
        (applyReportReply (applyReportReply r)).status = "visible" ∧
        (applyReportReply (applyReportReply (applyReportReply r))).status = "hidden")) := by
  constructor
  · refine ⟨applyReportPost_reports p, ?_, ?_, ?_⟩
    · constructor
      · intro hs
        by_cases hc : 3 ≤ p.reports + 1
        · exact hc
        · rw [applyReportPost_status_low p (by omega)] at hs
          exact absurd (Nat.le_succ_of_le (hp hs)) hc
      · exact applyReportPost_status_high p
    · intro hs
      have h3 : 3 ≤ p.reports + 1 := Nat.le_succ_of_le (hp hs)
      unfold applyReportPost
      dsimp only
      rw [if_pos h3, ← hs]
    · intro hs h0
      have r1 := applyReportPost_reports p
      have s1 := applyReportPost_status_low p (by omega)
      have r2 := applyReportPost_reports (applyReportPost p)
      have s2 := applyReportPost_status_low (applyReportPost p) (by omega)
      have s3 := applyReportPost_status_high
        (applyReportPost (applyReportPost p)) (by omega)
      exact ⟨by rw [s2, s1, hs], by rw [s3]⟩
  · refine ⟨applyReportReply_reports r, ?_, ?_, ?_⟩
    · constructor
      · intro hs
        by_cases hc : 3 ≤ r.reports + 1
        · exact hc
        · rw [applyReportReply_status_low r (by omega)] at hs
          exact absurd (Nat.le_succ_of_le (hr hs)) hc
      · exact applyReportReply_status_high r
    · intro hs
      have h3 : 3 ≤ r.reports + 1 := Nat.le_succ_of_le (hr hs)
      unfold applyReportReply
      dsimp only
      rw [if_pos h3, ← hs]
    · intro hs h0
      have r1 := applyReportReply_reports r
      have s1 := applyReportReply_status_low r (by omega)
      have r2 := applyReportReply_reports (applyReportReply r)
      have s2 := applyReportReply_status_low (applyReportReply r) (by omega)
      have s3 := applyReportReply_status_high
        (applyReportReply (applyReportReply r)) (by omega)
      exact ⟨by rw [s2, s1, hs], by rw [s3]⟩

/-- Witness for `report_threshold`: a fresh active post and a fresh visible
reply, each with zero reports. -/
theorem report_threshold_witness :
    ((applyReportPost ⟨1, "sad", "t", "general", "A", "active", 0, 0, 0⟩).reports
        = (0 : Nat) + 1 ∧
      ((applyReportPost ⟨1, "sad", "t", "general", "A", "active", 0, 0, 0⟩).status
          = "hidden" ↔ 3 ≤ (0 : Nat) + 1) ∧
      ((⟨1, "sad", "t", "general", "A", "active", 0, 0, 0⟩ : Post).status = "hidden" →
        applyReportPost ⟨1, "sad", "t", "general", "A", "active", 0, 0, 0⟩
          = ⟨1, "sad", "t", "general", "A", "active", 0 + 1, 0, 0⟩) ∧
      ((⟨1, "sad", "t", "general", "A", "active", 0, 0, 0⟩ : Post).status = "active" →
        (⟨1, "sad", "t", "general", "A", "active", 0, 0, 0⟩ : Post).reports = 0 →
        (applyReportPost (applyReportPost
            ⟨1, "sad", "t", "general", "A", "active", 0, 0, 0⟩)).status = "active" ∧
        (applyReportPost (applyReportPost (applyReportPost
            ⟨1, "sad", "t", "general", "A", "active", 0, 0, 0⟩))).status = "hidden")) ∧
    ((applyReportReply ⟨4, 1, "x", "B", false, "visible", 0, 0⟩).reports
        = (0 : Nat) + 1 ∧
      ((applyReportReply ⟨4, 1, "x", "B", false, "visible", 0, 0⟩).status
          = "hidden" ↔ 3 ≤ (0 : Nat) + 1) ∧
      ((⟨4, 1, "x", "B", false, "visible", 0, 0⟩ : Reply).status = "hidden" →
        applyReportReply ⟨4, 1, "x", "B", false, "visible", 0, 0⟩
          = ⟨4, 1, "x", "B", false, "visible", 0 + 1, 0⟩) ∧
      ((⟨4, 1, "x", "B", false, "visible", 0, 0⟩ : Reply).status = "visible" →
        (⟨4, 1, "x", "B", false, "visible", 0, 0⟩ : Reply).reports = 0 →
        (applyReportReply (applyReportReply
            ⟨4, 1, "x", "B", false, "visible", 0, 0⟩)).status = "visible" ∧
        (applyReportReply (applyReportReply (applyReportReply
            ⟨4, 1, "x", "B", false, "visible", 0, 0⟩))).status = "hidden")) :=
  report_threshold ⟨1, "sad", "t", "general", "A", "active", 0, 0, 0⟩
    ⟨4, 1, "x", "B", false, "visible", 0, 0⟩ (by decide) (by decide)

/-- C9 evaluation: reporting an id that exists in neither collection makes
the handler dereference the null query result — the `nullDeref` crash
outcome, not a distinguishable not-found response — although no counter is
half-applied (the store is unchanged); reply creation against an absent
post id, by contrast, does return the distinguishable not-found outcome
with no state change. -/
theorem report_missing_id_crash :
    reportContent ⟨[], [⟨1, "sad", "t", "general", "A", "active", 0, 0, 0⟩], []⟩ "post" 2
      = (.nullDeref, ⟨[], [⟨1, "sad", "t", "general", "A", "active", 0, 0, 0⟩], []⟩) ∧
    reportContent ⟨[], [⟨1, "sad", "t", "general", "A", "active", 0, 0, 0⟩], []⟩ "reply" 2
      = (.nullDeref, ⟨[], [⟨1, "sad", "t", "general", "A", "active", 0, 0, 0⟩], []⟩) ∧
    createReply ⟨[], [⟨1, "sad", "t", "general", "A", "active", 0, 0, 0⟩], []⟩
        ⟨"B", 0, false, 0⟩ (some 2) "hi" 9 9
      = (.notFound, ⟨[], [⟨1, "sad", "t", "general", "A", "active", 0, 0, 0⟩], []⟩) := by
  decide

/-- C10: `POST /api/reply` never consults `moderateText`: with any existing
parent post and non-empty text — even text that the moderation denylist
rejects — the reply is created and stored verbatim. -/
theorem reply_skips_moderation (db : DB) (u : User) (pid : Nat) (post : Post)
    (text : String) (i t : Nat)
    (hfind : findPost db.posts pid = some post) (htext : text ≠ "")
    (_hmod : moderateText text = false) :
    (createReply db u (some pid) text i t).1 = .success ∧
    (createReply db u (some pid) text i t).2.replies
      = db.replies ++ [⟨i, pid, text, u.deviceToken,
          post.authorToken == u.deviceToken, "visible", 0, t⟩] := by
  unfold createReply
  simp [htext, hfind]

/-- Witness for `reply_skips_moderation`: replying "die" (a denylisted
substring that would block a post) to an existing post succeeds and stores
the reply. -/
theorem reply_skips_moderation_witness :
    (createReply ⟨[], [⟨1, "sad", "t", "general", "A", "active", 0, 0, 0⟩], []⟩
        ⟨"B", 0, false, 0⟩ (some 1) "die" 7 8).1 = .success ∧
    (createReply ⟨[], [⟨1, "sad", "t", "general", "A", "active", 0, 0, 0⟩], []⟩
        ⟨"B", 0, false, 0⟩ (some 1) "die" 7 8).2.replies
      = [] ++ [⟨7, 1, "die", "B", ("A" : String) == "B", "visible", 0, 8⟩] :=
  reply_skips_moderation ⟨[], [⟨1, "sad", "t", "general", "A", "active", 0, 0, 0⟩], []⟩
    ⟨"B", 0, false, 0⟩ 1 ⟨1, "sad", "t", "general", "A", "active", 0, 0, 0⟩ "die" 7 8
    rfl (by decide) (by decide)

section PointsHelpers

theorem createPost_users (db : DB) (u : User) (mood text : String)
    (room? : Option String) (i t : Nat) :
    (createPost db u mood text room? i t).2.users = db.users ∨
    (createPost db u mood text room? i t).2.users
      = incLightPoints db.users u.deviceToken 1 := by
  unfold createPost
  split
  · exact Or.inl rfl
  · split
    · exact Or.inl rfl
    · exact Or.inr rfl

theorem createReply_users (db : DB) (u : User) (postId? : Option Nat)
    (text : String) (i t : Nat) :
    (createReply db u postId? text i t).2.users = db.users ∨
    (createReply db u postId? text i t).2.users
      = incLightPoints db.users u.deviceToken 5 := by
  unfold createReply
  rcases postId? with _ | pid
  · exact Or.inl rfl
  · dsimp only
    split
    · exact Or.inl rfl
    · rcases h : findPost db.posts pid with _ | post <;> simp [h]

theorem reportContent_users (db : DB) (ty : String) (id : Nat) :
    (reportContent db ty id).2.users = db.users := by
  unfold reportContent
  split
  · dsimp only
    split
    · rfl
    · split <;> rfl
  · dsimp only
    split
    · rfl
    · split <;> rfl

theorem adminBan_users (db : DB) (token : String) (deleteContent : Bool) :
    (adminBan db token deleteContent).users
      = updateFirstUser db.users token (fun u => { u with isBanned := true }) := by
  unfold adminBan
  split <;> rfl

theorem getPoints_adminBan (db : DB) (token : String) (deleteContent : Bool)
    (k : String) :
    (findUser (adminBan db token deleteContent).users k).map User.lightPoints
      = (findUser db.users k).map User.lightPoints := by
  rw [adminBan_users]
  by_cases hk : k = token
  · subst hk
    rw [findUser_updateFirstUser_self db.users k
      (fun u => { u with isBanned := true }) (fun _ => rfl)]
    rcases findUser db.users k with _ | v <;> rfl
  · rw [findUser_updateFirstUser_ne db.users token k
      (fun u => { u with isBanned := true }) (fun _ => rfl) hk]

theorem authUser_preserves (users : List User) (key? : Option String) (now : Nat)
    (k : String) (v : User) (h : findUser users k = some v) :
    findUser (authUser users key? now).2 k = some v := by
  unfold authUser
  rcases key? with _ | key
  · exact h
  · dsimp only
    split
    · exact h
    · split
      · exact h
      · rcases hf : findUser users key with _ | w
        · dsimp only
          split <;> exact findUser_append_of_found users _ k v h
        · dsimp only
          split <;> exact h

end PointsHelpers

/-- C8: a successful post creation adds exactly 1 light point to the
author and a successful reply exactly 5 more (so one of each adds exactly
6), leaving every other key's balance untouched; and no modelled operation
— auth, post creation, reply creation, reporting, or an admin ban —
ever lowers any key's balance. -/
theorem reward_points (db : DB) (u u₀ : User)
    (mood text : String) (room? : Option String)
    (pid : Nat) (rtext : String) (i₁ t₁ i₂ t₂ : Nat)
    {p : Post} {db₁ db₂ : DB}
    (hu : findUser db.users u.deviceToken = some u₀)
    (hpost : createPost db u mood text room? i₁ t₁ = (.created p, db₁))
    (hreply : createReply db₁ u (some pid) rtext i₂ t₂ = (.success, db₂)) :
    getPoints db₁ u.deviceToken = some (u₀.lightPoints + 1) ∧
    getPoints db₂ u.deviceToken = some (u₀.lightPoints + 6) ∧
    (∀ k, k ≠ u.deviceToken →
      getPoints db₁ k = getPoints db k ∧ getPoints db₂ k = getPoints db₁ k) ∧
    (∀ u' mood' text' room?' i' t',
      PointsNondecreasing db.users (createPost db u' mood' text' room?' i' t').2.users) ∧
    (∀ u' postId?' text' i' t',
      PointsNondecreasing db.users (createReply db u' postId?' text' i' t').2.users) ∧
    (∀ ty id, PointsNondecreasing db.users (reportContent db ty id).2.users) ∧
    (∀ token del, PointsNondecreasing db.users (adminBan db token del).users) ∧
    (∀ key? now, PointsNondecreasing db.users (authUser db.users key? now).2) := by
  have husers₁ : db₁.users = incLightPoints db.users u.deviceToken 1 := by
    unfold createPost at hpost
    split at hpost
    · exact absurd (congrArg Prod.fst hpost) (by simp)
    · split at hpost
      · exact absurd (congrArg Prod.fst hpost) (by simp)
      · have := congrArg Prod.snd hpost
        simp only at this
        rw [← this]
  have husers₂ : db₂.users = incLightPoints db₁.users u.deviceToken 5 := by
    unfold createReply at hreply
    dsimp only at hreply
    split at hreply
    · exact absurd (congrArg Prod.fst hreply) (by simp)
    · rcases hf : findPost db₁.posts pid with _ | post
      · rw [hf] at hreply
        exact absurd (congrArg Prod.fst hreply) (by simp)
      · rw [hf] at hreply
        have := congrArg Prod.snd hreply
        simp only at this
        rw [← this]
  have hpt₁ : getPoints db₁ u.deviceToken = some (u₀.lightPoints + 1) := by
    unfold getPoints
    rw [husers₁, findUser_incLightPoints_self, hu]
    rfl
  have hpt₂ : getPoints db₂ u.deviceToken = some (u₀.lightPoints + 6) := by
    unfold getPoints
    rw [husers₂, findUser_incLightPoints_self]
    have : findUser db₁.users u.deviceToken
        = some { u₀ with lightPoints := u₀.lightPoints + 1 } := by
      rw [husers₁, findUser_incLightPoints_self, hu]
      rfl
    rw [this]
    simp only [Option.map_some', Option.some.injEq]
  refine ⟨hpt₁, hpt₂, ?_, ?_, ?_, ?_, ?_, ?_⟩
  · intro k hk
    constructor
    · unfold getPoints
      rw [husers₁, findUser_incLightPoints_ne db.users u.deviceToken k 1 hk]
    · unfold getPoints
      rw [husers₂, findUser_incLightPoints_ne db₁.users u.deviceToken k 5 hk]
  · intro u' mood' text' room?' i' t'
    rcases createPost_users db u' mood' text' room?' i' t' with h | h <;> rw [h]
    · exact pointsNondecreasing_refl db.users
    · exact pointsNondecreasing_incLightPoints db.users u'.deviceToken 1
  · intro u' postId?' text' i' t'
    rcases createReply_users db u' postId?' text' i' t' with h | h <;> rw [h]
    · exact pointsNondecreasing_refl db.users
    · exact pointsNondecreasing_incLightPoints db.users u'.deviceToken 5
  · intro ty id
    rw [reportContent_users db ty id]
    exact pointsNondecreasing_refl db.users
  · intro token del
    intro k n hn
    exact ⟨n, by rw [getPoints_adminBan db token del k]; exact hn, le_refl n⟩
  · intro key? now
    intro k n hn
    rcases Option.map_eq_some'.mp hn with ⟨v, hv, hvn⟩
    exact ⟨n, by rw [authUser_preserves db.users key? now k v hv, ← hvn]; rfl,
      le_refl n⟩

/-- Witness for `reward_points`: a user with 3 points posts once and
replies once: the balance becomes 4 and then 9 = 3 + 6. -/
theorem reward_points_witness :
    getPoints (createPost ⟨[⟨"B", 3, false, 0⟩],
        [⟨1, "m", "x", "general", "A", "active", 0, 0, 0⟩], []⟩
        ⟨"B", 3, false, 0⟩ "sad" "hello" none 10 11).2 "B" = some 4 ∧
    getPoints (createReply (createPost ⟨[⟨"B", 3, false, 0⟩],
        [⟨1, "m", "x", "general", "A", "active", 0, 0, 0⟩], []⟩
        ⟨"B", 3, false, 0⟩ "sad" "hello" none 10 11).2
        ⟨"B", 3, false, 0⟩ (some 1) "ok" 12 13).2 "B" = some 9 :=
  ⟨(reward_points ⟨[⟨"B", 3, false, 0⟩],
        [⟨1, "m", "x", "general", "A", "active", 0, 0, 0⟩], []⟩
      ⟨"B", 3, false, 0⟩ ⟨"B", 3, false, 0⟩ "sad" "hello" none 1 "ok" 10 11 12 13
      rfl rfl rfl).1,
   (reward_points ⟨[⟨"B", 3, false, 0⟩],
        [⟨1, "m", "x", "general", "A", "active", 0, 0, 0⟩], []⟩
      ⟨"B", 3, false, 0⟩ ⟨"B", 3, false, 0⟩ "sad" "hello" none 1 "ok" 10 11 12 13
      rfl rfl rfl).2.1⟩

end VoidSrv
